import Mathlib

/-!
Verification of the Splunk observable exporter (`export_to_aws.py`).

This file shallowly embeds the merge/export logic of
`SplunkObservableExporter` — the DynamoDB reconciliation loop
(`export_to_dynamodb`), the master-file merge (`_merge_master_data`),
the RDS row construction (`export_to_rds_postgres`), and the S3
snapshot gate (`_should_update_s3_master_file`) — and proves or refutes
the specified properties of that code.

Modelling conventions:
* Absolute times are integers (seconds); `datetime.now()` is a parameter.
* Timestamp-valued string fields are modelled by `TsStr`, which tags a
  string field with how `parse_iso_timestamp` treats it (empty, non-empty
  but unparsable, or parsing to a definite instant).  Formatting a
  datetime (`isoformat` plus the Z/+00:00 rewrites) always yields a
  string that reparses to the same instant, which `TsStr.iso` captures.
* Numeric field values are modelled by `PyNum`, which tags a value with
  how Python `int(...)` and `float(...)` treat it.  Exact rationals
  stand in for Python floats.
* Python `round(x, 2)` is modelled as exact rational rounding to two
  decimal places (`round2`).
-/

namespace SplunkExport

/-- A timestamp-valued field as `export_to_aws.py` sees it: the empty
string (also used for a missing key, since the code reads these fields
with `.get(..., '')`), a non-empty string that `parse_iso_timestamp` /
`datetime.fromisoformat` rejects (`junk s`, with `s` non-empty by
convention), or a well-formed ISO-8601 string denoting the instant `t`
in seconds (`iso t`). -/
inductive TsStr where
  | empty : TsStr
  | junk : String → TsStr
  | iso : Int → TsStr
deriving DecidableEq

/-- `parse_iso_timestamp` (`export_to_aws.py` lines 285–291 and 738–744):
returns `None` for an empty string and for any string
`datetime.fromisoformat` rejects (the exception is swallowed), and the
denoted instant otherwise. -/
def parseIso : TsStr → Option Int
  | TsStr.empty => none
  | TsStr.junk _ => none
  | TsStr.iso t => some t

/-- Python truthiness of a timestamp string field (`if new_first_seen`):
only the empty string is falsy. -/
def tsTruthy : TsStr → Bool
  | TsStr.empty => false
  | TsStr.junk _ => true
  | TsStr.iso _ => true

/-- A numeric field value, tagged by how Python `int(...)`/`float(...)`
treat it: a Python `int`; a Python `float` (modelled as an exact
rational); a decimal-integer string (accepted by both `int` and
`float`); a numeric string with a fractional part (accepted by `float`,
rejected by `int`); or a non-numeric, non-empty string (rejected by
both). -/
inductive PyNum where
  | int : Int → PyNum
  | float : ℚ → PyNum
  | intStr : Int → PyNum
  | floatStr : ℚ → PyNum
  | junkStr : String → PyNum
deriving DecidableEq

/-- Truncation of a rational toward zero, as Python `int(float)` does. -/
def ratTrunc (q : ℚ) : Int := if 0 ≤ q then ⌊q⌋ else -⌊-q⌋

/-- Python `int(v)`: identity on ints, truncation on floats, parsing on
decimal-integer strings; raises `ValueError` (modelled as `Except.error`)
on fractional or non-numeric strings. -/
def pyInt : PyNum → Except Unit Int
  | PyNum.int n => Except.ok n
  | PyNum.float q => Except.ok (ratTrunc q)
  | PyNum.intStr n => Except.ok n
  | PyNum.floatStr _ => Except.error ()
  | PyNum.junkStr _ => Except.error ()

/-- Python `float(v)`: exact on ints and numeric strings; raises on
non-numeric strings. -/
def pyFloat : PyNum → Except Unit ℚ
  | PyNum.int n => Except.ok (n : ℚ)
  | PyNum.float q => Except.ok q
  | PyNum.intStr n => Except.ok (n : ℚ)
  | PyNum.floatStr q => Except.ok q
  | PyNum.junkStr _ => Except.error ()

/-- Python truthiness of a numeric field value: zero ints/floats are
falsy; the string variants are non-empty strings, hence truthy. -/
def numTruthy : PyNum → Bool
  | PyNum.int n => decide (n ≠ 0)
  | PyNum.float q => decide (q ≠ 0)
  | PyNum.intStr _ => true
  | PyNum.floatStr _ => true
  | PyNum.junkStr _ => true

/-- `int(item.get(k, 0))`: a missing key defaults to the int `0`. -/
def pyIntD : Option PyNum → Except Unit Int
  | none => Except.ok 0
  | some v => pyInt v

/-- `float(item.get(k, 0))`: a missing key defaults to the int `0`. -/
def pyFloatD : Option PyNum → Except Unit ℚ
  | none => Except.ok 0
  | some v => pyFloat v

/-- Python `round(x, 2)` on the exact rational value of `x`: round the
value to two decimal places (`round` resolves the half-way case, which
no claim exercises). -/
def round2 (q : ℚ) : ℚ := ((round (100 * q) : ℤ) : ℚ) / 100

/-- `round((final_last_ts - final_first_ts).total_seconds() / 86400, 2)`
with both instants in seconds. -/
def daysBetween (a b : Int) : ℚ := round2 (((b - a : ℤ) : ℚ) / 86400)

/-- One incoming record (a dict from the Splunk result stream or the
master-file data).  Timestamp fields read with `.get(..., '')` are
`TsStr` (missing ≡ empty); other fields are `Option` (`none` ≡ key
absent).  Multi-valued attributes are modelled as optional string lists
(the list branch of the code; the scalar-string tolerance of
`parse_multivalue` / `convert_to_dynamodb_value` is not exercised by any
claim). -/
structure Item where
  indicator : String
  indicator_type : String
  first_seen : TsStr
  last_seen : TsStr
  total_hits : Option PyNum
  days_seen : Option PyNum
  src_ips : Option (List String)
  dest_ips : Option (List String)
  users : Option (List String)
  sourcetypes : Option (List String)
  actions : Option (List String)
  types : Option (List String)
  unique_src_ips : Option PyNum
  unique_dest_ips : Option PyNum
deriving DecidableEq

/-- The composite primary key `f"{indicator_type}#{indicator}"`. -/
def dynKey (it : Item) : String := it.indicator_type ++ "#" ++ it.indicator

/-- A DynamoDB item for one identity, as written by `export_to_dynamodb`.
The attributes the update expression always sets are plain fields (the
code also defaults an absent stored `total_hits`/`first_seen` on read,
which the blank item reproduces); each multi-valued attribute is
`Option` because `update_item` sets it only when the incoming record
carries it non-empty, so it can be absent from the stored item. -/
structure StoredItem where
  indicator : String
  indicator_type : String
  first_seen : TsStr
  last_seen : TsStr
  total_hits : Int
  days_seen : ℚ
  src_ips : Option (List String)
  dest_ips : Option (List String)
  users : Option (List String)
  sourcetypes : Option (List String)
  actions : Option (List String)
  types : Option (List String)
  export_timestamp : TsStr
  ttl : Int
deriving DecidableEq

/-- The DynamoDB table: an association list from composite key to item. -/
def DynStore : Type := List (String × StoredItem)

/-- Point read by key (`get_item`). -/
def storeGet (s : DynStore) (k : String) : Option StoredItem :=
  match s with
  | [] => none
  | (k₂, v) :: rest => if k₂ = k then some v else storeGet rest k

/-- Replace-or-insert a key's item. -/
def storePut (s : DynStore) (k : String) (v : StoredItem) : DynStore :=
  match s with
  | [] => [(k, v)]
  | (k₂, v₂) :: rest =>
      if k₂ = k then (k, v) :: rest else (k₂, v₂) :: storePut rest k v

/-- The values of one `update_item` call's `SET` expression
(lines 356–430).  The always-present assignments are plain fields; a
multi-valued attribute is `some l` when the expression contains a `SET`
clause for it and `none` when the clause was omitted. -/
structure UpdateSpec where
  indicator : String
  indicator_type : String
  first_seen : TsStr
  last_seen : TsStr
  total_hits : Int
  days_seen : ℚ
  src_ips : Option (List String)
  dest_ips : Option (List String)
  users : Option (List String)
  sourcetypes : Option (List String)
  actions : Option (List String)
  types : Option (List String)
  export_timestamp : TsStr
  ttl : Int
deriving DecidableEq

/-- `if 'src_ips' in item and item['src_ips']:` — the `SET` clause for a
multi-valued attribute is emitted exactly when the incoming record
carries the key with a non-empty list. -/
def condAttr : Option (List String) → Option (List String)
  | none => none
  | some l => if l.isEmpty then none else some l

/-- A `SET` clause overwrites the attribute; an omitted clause leaves the
stored attribute untouched. -/
def setOr (upd old : Option (List String)) : Option (List String) :=
  match upd with
  | some l => some l
  | none => old

/-- The item DynamoDB holds for a key that has never been written:
every attribute absent (reads of the always-set scalar attributes
default to `''`/`0`, which the blank values reproduce). -/
def blankStored : StoredItem :=
  { indicator := "", indicator_type := "", first_seen := TsStr.empty,
    last_seen := TsStr.empty, total_hits := 0, days_seen := 0,
    src_ips := none, dest_ips := none, users := none, sourcetypes := none,
    actions := none, types := none, export_timestamp := TsStr.empty,
    ttl := 0 }

/-- Effect of one `update_item` `SET` expression on the current stored
item (DynamoDB upsert semantics: attributes without a `SET` clause
persist). -/
def applyUpdateTo (old : StoredItem) (u : UpdateSpec) : StoredItem :=
  { indicator := u.indicator, indicator_type := u.indicator_type,
    first_seen := u.first_seen, last_seen := u.last_seen,
    total_hits := u.total_hits, days_seen := u.days_seen,
    src_ips := setOr u.src_ips old.src_ips,
    dest_ips := setOr u.dest_ips old.dest_ips,
    users := setOr u.users old.users,
    sourcetypes := setOr u.sourcetypes old.sourcetypes,
    actions := setOr u.actions old.actions,
    types := setOr u.types old.types,
    export_timestamp := u.export_timestamp, ttl := u.ttl }

/-- `update_item` against the table. -/
def applyUpdate (s : DynStore) (k : String) (u : UpdateSpec) : DynStore :=
  storePut s k (applyUpdateTo ((storeGet s k).getD blankStored) u)

/-- `final_first_seen` (lines 318–325 and 780–787): minimum of whichever
of existing/incoming parsed, keeping the parsing side's original string
when only one parsed, and the reformatted minimum when both did; current
time when neither did.  (The `isoformat` of a minimum always reparses to
that minimum, which `TsStr.iso` captures.) -/
def mergeFirstSeen (now : Int) (ex nw : TsStr) : TsStr :=
  match parseIso ex, parseIso nw with
  | some a, some b => TsStr.iso (min a b)
  | some _, none => ex
  | none, some _ => nw
  | none, none => TsStr.iso now

/-- `final_last_seen` (lines 327–334 and 789–796): as `mergeFirstSeen`
with maximum. -/
def mergeLastSeen (now : Int) (ex nw : TsStr) : TsStr :=
  match parseIso ex, parseIso nw with
  | some a, some b => TsStr.iso (max a b)
  | some _, none => ex
  | none, some _ => nw
  | none, none => TsStr.iso now

/-- Errors that escape the per-item body of `export_to_dynamodb`'s loop:
a `ValueError` from `int(...)`/`float(...)` on a numeric field, or a
failing `update_item` call. -/
inductive DynErr where
  | badInt : DynErr
  | badFloat : DynErr
  | writeFailed : String → DynErr
deriving DecidableEq

/-- Environment of one `export_to_dynamodb` run: which keys' `get_item`
raises (caught and degraded to "no existing item", lines 293–302), which
keys' `update_item` raises (propagated), the current time, and the
`DYNAMODB_TTL_DAYS` setting. -/
structure DynamoEnv where
  readFails : String → Bool
  writeFails : String → Bool
  now : Int
  ttlDays : Int

/-- `days_seen` of the existing-aggregate branch (lines 338–343):
recompute from the merged bounds when both reparse, else `0`. -/
def existingDays (now : Int) (ex : StoredItem) (it : Item) : ℚ :=
  match parseIso (mergeFirstSeen now ex.first_seen it.first_seen),
        parseIso (mergeLastSeen now ex.last_seen it.last_seen) with
  | some a, some b => daysBetween a b
  | _, _ => 0

/-- The merged fields `(final_first_seen, final_last_seen,
final_total_hits, days_seen)` of the existing-aggregate branch
(lines 308–343). -/
def existingMerge (now : Int) (ex : StoredItem) (it : Item) (newHits : Int) :
    TsStr × TsStr × Int × ℚ :=
  (mergeFirstSeen now ex.first_seen it.first_seen,
   mergeLastSeen now ex.last_seen it.last_seen,
   ex.total_hits + newHits,
   existingDays now ex it)

/-- A bound of a brand-new aggregate (lines 345–346):
`new_first_seen if new_first_seen else datetime.now().isoformat() + 'Z'`
— the incoming string verbatim when non-empty (parsable or not), the
current time only when it is empty/missing. -/
def newBound (now : Int) (ts : TsStr) : TsStr :=
  if tsTruthy ts then ts else TsStr.iso now

/-- The merged fields of the new-identity branch (lines 344–354): each
bound is the incoming string when non-empty, else the current time;
`days_seen` is recomputed when both bounds reparse, else it is
`float(item.get('days_seen', 0))` — whose conversion at line 378 raises
on a non-numeric string. -/
def newMerge (now : Int) (it : Item) (newHits : Int) :
    Except DynErr (TsStr × TsStr × Int × ℚ) :=
  let ffs := newBound now it.first_seen
  let fls := newBound now it.last_seen
  match parseIso ffs, parseIso fls with
  | some a, some b => Except.ok (ffs, fls, newHits, daysBetween a b)
  | _, _ =>
      match pyFloatD it.days_seen with
      | Except.ok q => Except.ok (ffs, fls, newHits, q)
      | Except.error _ => Except.error DynErr.badFloat

/-- The `SET` expression built for one record (lines 356–428), from the
merged `(final_first_seen, final_last_seen, final_total_hits,
days_seen)`. -/
def mkUpdate (env : DynamoEnv) (it : Item) (m : TsStr × TsStr × Int × ℚ) :
    UpdateSpec :=
  { indicator := it.indicator, indicator_type := it.indicator_type,
    first_seen := m.1, last_seen := m.2.1, total_hits := m.2.2.1,
    days_seen := m.2.2.2,
    types := condAttr it.types,
    src_ips := condAttr it.src_ips,
    dest_ips := condAttr it.dest_ips,
    users := condAttr it.users,
    sourcetypes := condAttr it.sourcetypes,
    actions := condAttr it.actions,
    export_timestamp := TsStr.iso env.now,
    ttl := env.now + env.ttlDays * 86400 }

/-- The body of `export_to_dynamodb`'s per-record loop (lines 264–444):
skip a record with a missing identity field; read the existing item
(a read failure degrades to "absent"); parse the incoming numeric
fields (`int`/`float` failures raise); merge time bounds, hits and
`days_seen` (existing branch lines 308–343, new-identity branch lines
344–354); and issue the `update_item` (a write failure raises). -/
def dynamoStep (env : DynamoEnv) (store : DynStore) (it : Item) :
    Except DynErr DynStore :=
  if it.indicator = "" ∨ it.indicator_type = "" then Except.ok store
  else
    let key := dynKey it
    let existing : Option StoredItem :=
      if env.readFails key then none else storeGet store key
    match pyIntD it.total_hits with
    | Except.error _ => Except.error DynErr.badInt
    | Except.ok newHits =>
      let merged : Except DynErr (TsStr × TsStr × Int × ℚ) :=
        match existing with
        | some ex => Except.ok (existingMerge env.now ex it newHits)
        | none => newMerge env.now it newHits
      match merged with
      | Except.error e => Except.error e
      | Except.ok m =>
          if env.writeFails key then Except.error (DynErr.writeFailed key)
          else Except.ok (applyUpdate store key (mkUpdate env it m))

/-- The whole loop of `export_to_dynamodb` sits in one `try` (lines
263–450): the first exception stops the iteration and propagates, while
writes already committed by earlier iterations persist.  Returns the
table after the run and the propagated error, if any. -/
def dynamoRun (env : DynamoEnv) (store : DynStore) :
    List Item → DynStore × Option DynErr
  | [] => (store, none)
  | it :: rest =>
      match dynamoStep env store it with
      | Except.ok s₂ => dynamoRun env s₂ rest
      | Except.error e => (store, some e)

/-- `merge_lists` in `_merge_master_data` (lines 807–811):
`list(set(existing + new))` — set union of the two lists.  Python's set
iteration order is unspecified, so the model fixes deduplicated
concatenation and all theorems use only set-level facts (membership and
duplicate-freeness) about the result. -/
def mergeLists (a b : Option (List String)) : List String :=
  ((a.getD []) ++ (b.getD [])).dedup

/-- `days_seen` of the master merge (lines 800–805): recomputed from
the merged bounds when both reparse, else the existing record's raw
`days_seen` value (default `0`). -/
def masterDays (now : Int) (ex nw : Item) : PyNum :=
  match parseIso (mergeFirstSeen now ex.first_seen nw.first_seen),
        parseIso (mergeLastSeen now ex.last_seen nw.last_seen) with
  | some a, some b => PyNum.float (daysBetween a b)
  | _, _ => (ex.days_seen).getD (PyNum.int 0)

/-- One key-collision merge of `_merge_master_data` (lines 764–829),
producing the merged record for a key present in both the existing and
the new data.  `int(...)` on `total_hits` / `unique_src_ips` /
`unique_dest_ips` can raise (propagating out of the merge);
timestamps merge as in the DynamoDB path; `days_seen` is recomputed
from the merged bounds, falling back to the existing record's raw value
(default `0`). -/
def mergeMasterPair (now : Int) (ex nw : Item) : Except Unit Item :=
  match pyIntD ex.total_hits with
  | Except.error _ => Except.error ()
  | Except.ok exHits =>
    match pyIntD nw.total_hits with
    | Except.error _ => Except.error ()
    | Except.ok nwHits =>
      let ffs := mergeFirstSeen now ex.first_seen nw.first_seen
      let fls := mergeLastSeen now ex.last_seen nw.last_seen
      let ds : PyNum := masterDays now ex nw
      match pyIntD ex.unique_src_ips, pyIntD nw.unique_src_ips with
      | Except.ok exUS, Except.ok nwUS =>
        match pyIntD ex.unique_dest_ips, pyIntD nw.unique_dest_ips with
        | Except.ok exUD, Except.ok nwUD =>
            Except.ok
              { indicator := nw.indicator,
                indicator_type := nw.indicator_type,
                first_seen := ffs, last_seen := fls,
                total_hits := some (PyNum.int (exHits + nwHits)),
                days_seen := some ds,
                src_ips := some (mergeLists ex.src_ips nw.src_ips),
                dest_ips := some (mergeLists ex.dest_ips nw.dest_ips),
                users := some (mergeLists ex.users nw.users),
                sourcetypes := some (mergeLists ex.sourcetypes nw.sourcetypes),
                actions := some (mergeLists ex.actions nw.actions),
                types := some (mergeLists ex.types nw.types),
                unique_src_ips := some (PyNum.int (max exUS nwUS)),
                unique_dest_ips := some (PyNum.int (max exUD nwUD)) }
        | _, _ => Except.error ()
      | _, _ => Except.error ()

/-- Errors raised while building one row tuple in
`export_to_rds_postgres` (lines 550–566): an unguarded
`datetime.fromisoformat` on a non-empty unparsable timestamp, or an
`int(...)`/`float(...)` failure on a numeric field.  All propagate out
of the loop. -/
inductive RdsErr where
  | badTs : RdsErr
  | badInt : RdsErr
  | badFloat : RdsErr
deriving DecidableEq

/-- One row of the `observable_catalog` INSERT (the tuple of lines
550–566). -/
structure RdsRow where
  indicator_key : String
  indicator : String
  indicator_type : String
  first_seen : Option Int
  last_seen : Option Int
  total_hits : Int
  days_seen : Option ℚ
  src_ips : List String
  dest_ips : List String
  users : List String
  sourcetypes : List String
  actions : List String
  unique_src_ips : Option Int
  unique_dest_ips : Option Int
  export_timestamp : Int
deriving DecidableEq

/-- `datetime.fromisoformat(ts.replace('Z', '+00:00')) if ts else None`
(lines 554–555): `None` for an empty/missing field, the instant for a
parsable one, and a raised `ValueError` — there is no `try` here — for
a non-empty unparsable one. -/
def rdsParseTs : TsStr → Except RdsErr (Option Int)
  | TsStr.empty => Except.ok none
  | TsStr.junk _ => Except.error RdsErr.badTs
  | TsStr.iso t => Except.ok (some t)

/-- `float(item.get('days_seen', 0)) if item.get('days_seen') else None`
(line 557): `None` when the field is missing or falsy, else `float` of
it (which raises on a non-numeric string). -/
def rdsOptFloat : Option PyNum → Except RdsErr (Option ℚ)
  | none => Except.ok none
  | some v =>
      if numTruthy v then
        match pyFloat v with
        | Except.ok q => Except.ok (some q)
        | Except.error _ => Except.error RdsErr.badFloat
      else Except.ok none

/-- `int(item.get(k, 0)) if item.get(k) else None` (lines 563–564). -/
def rdsOptInt : Option PyNum → Except RdsErr (Option Int)
  | none => Except.ok none
  | some v =>
      if numTruthy v then
        match pyInt v with
        | Except.ok n => Except.ok (some n)
        | Except.error _ => Except.error RdsErr.badInt
      else Except.ok none

/-- Building the parameter tuple for one record in
`export_to_rds_postgres` (lines 515–566), in the source's evaluation
order: timestamps first, then `int(total_hits)`, then the optional
`days_seen` float, then the multi-valued lists, then the optional
unique counts. -/
def rdsRowOfItem (now : Int) (it : Item) : Except RdsErr RdsRow :=
  match rdsParseTs it.first_seen with
  | Except.error e => Except.error e
  | Except.ok fs =>
    match rdsParseTs it.last_seen with
    | Except.error e => Except.error e
    | Except.ok ls =>
      match pyIntD it.total_hits with
      | Except.error _ => Except.error RdsErr.badInt
      | Except.ok hits =>
        match rdsOptFloat it.days_seen with
        | Except.error e => Except.error e
        | Except.ok ds =>
          match rdsOptInt it.unique_src_ips with
          | Except.error e => Except.error e
          | Except.ok us =>
            match rdsOptInt it.unique_dest_ips with
            | Except.error e => Except.error e
            | Except.ok ud =>
                Except.ok
                  { indicator_key := dynKey it,
                    indicator := it.indicator,
                    indicator_type := it.indicator_type,
                    first_seen := fs, last_seen := ls,
                    total_hits := hits, days_seen := ds,
                    src_ips := (it.src_ips).getD [],
                    dest_ips := (it.dest_ips).getD [],
                    users := (it.users).getD [],
                    sourcetypes := (it.sourcetypes).getD [],
                    actions := (it.actions).getD [],
                    unique_src_ips := us, unique_dest_ips := ud,
                    export_timestamp := now }

/-- The per-record loop of `export_to_rds_postgres` (lines 515–566):
records with a missing identity field are skipped before any statement
is issued; otherwise the row is built (failures propagate, and the
single `commit` at the end means nothing earlier is committed) and
executed.  The result is the ordered list of rows handed to the
database. -/
def rdsRows (now : Int) : List Item → Except RdsErr (List RdsRow)
  | [] => Except.ok []
  | it :: rest =>
      if it.indicator = "" ∨ it.indicator_type = "" then rdsRows now rest
      else
        match rdsRowOfItem now it with
        | Except.error e => Except.error e
        | Except.ok row =>
            match rdsRows now rest with
            | Except.error e => Except.error e
            | Except.ok rows => Except.ok (row :: rows)

/-- Outcome of the `head_object` call on the master-file marker in
`_should_update_s3_master_file`: success with an optional
`LastModified` calendar date (modelled as a day number), a `NoSuchKey`
error, or any other exception. -/
inductive HeadResult where
  | ok : Option Int → HeadResult
  | noSuchKey : HeadResult
  | otherError : HeadResult
deriving DecidableEq

/-- `_should_update_s3_master_file` (lines 691–720): `False` when no S3
client is configured; else `False` exactly when the marker's
`LastModified` date equals today's date, and `True` when the dates
differ, the `LastModified` field is missing, the object is absent, or
the check fails. -/
def shouldUpdateS3MasterFile (s3Configured : Bool) (head : HeadResult)
    (today : Int) : Bool :=
  if !s3Configured then false
  else
    match head with
    | HeadResult.ok (some d) => if d = today then false else true
    | HeadResult.ok none => true
    | HeadResult.noSuchKey => true
    | HeadResult.otherError => true

/-- An `Item` with every field absent, for building concrete records. -/
def emptyRecord : Item :=
  { indicator := "", indicator_type := "", first_seen := TsStr.empty,
    last_seen := TsStr.empty, total_hits := none, days_seen := none,
    src_ips := none, dest_ips := none, users := none, sourcetypes := none,
    actions := none, types := none, unique_src_ips := none,
    unique_dest_ips := none }

/-- A failure-free run environment for concrete examples. -/
def okEnv : DynamoEnv :=
  { readFails := fun _ => false, writeFails := fun _ => false,
    now := 1700000000, ttlDays := 90 }

/-- Concrete stored aggregate with `src_ips = {A, B}` (the spec's
scenario). -/
def exAB : StoredItem :=
  { blankStored with
    indicator := "1.2.3.4", indicator_type := "ip",
    first_seen := TsStr.iso 0, last_seen := TsStr.iso 777600,
    total_hits := 40, src_ips := some ["A", "B"] }

/-- Concrete incoming observation with `src_ips = {B, C}`. -/
def obsBC : Item :=
  { emptyRecord with
    indicator := "1.2.3.4", indicator_type := "ip",
    first_seen := TsStr.iso 345600, last_seen := TsStr.iso 1209600,
    total_hits := some (PyNum.int 2), src_ips := some ["B", "C"] }

/-- A store already holding `exAB` under its composite key. -/
def storeAB : DynStore := [("ip#1.2.3.4", exAB)]

/-- An environment whose `update_item` raises for the key
`ip#1.1.1.1` and succeeds elsewhere. -/
def failWriteEnv : DynamoEnv :=
  { okEnv with writeFails := fun k => k == "ip#1.1.1.1" }

/-- A valid observation whose identity is the failing key of
`failWriteEnv`. -/
def obsFailKey : Item :=
  { emptyRecord with
    indicator := "1.1.1.1", indicator_type := "ip",
    first_seen := TsStr.iso 0, last_seen := TsStr.iso 86400,
    total_hits := some (PyNum.int 5) }

/-- A valid observation for a second, distinct identity. -/
def obsOtherKey : Item :=
  { emptyRecord with
    indicator := "2.2.2.2", indicator_type := "ip",
    first_seen := TsStr.iso 0, last_seen := TsStr.iso 86400,
    total_hits := some (PyNum.int 7) }

/-- An observation for a fresh identity whose time bounds are non-empty
but unparsable strings. -/
def obsJunkBounds : Item :=
  { emptyRecord with
    indicator := "5d41402abc4b2a76b9719d911017c592",
    indicator_type := "md5", first_seen := TsStr.junk "not-a-timestamp",
    last_seen := TsStr.junk "also-not-a-timestamp",
    total_hits := some (PyNum.int 1) }

/-- An observation whose `total_hits` is a non-numeric string, on which
`int(...)` raises. -/
def obsJunkHits : Item :=
  { emptyRecord with
    indicator := "1.2.3.4", indicator_type := "ip",
    first_seen := TsStr.iso 0, last_seen := TsStr.iso 86400,
    total_hits := some (PyNum.junkStr "abc") }

/-- An observation whose `first_seen` is a non-empty unparsable string,
on which the RDS path's bare `fromisoformat` raises. -/
def obsJunkTsRds : Item :=
  { emptyRecord with
    indicator := "1.2.3.4", indicator_type := "ip",
    first_seen := TsStr.junk "1st of May", total_hits := some (PyNum.int 1) }

/-- A record with an empty `indicator` (and a non-empty type). -/
def obsNoIndicator : Item := { emptyRecord with
    indicator_type := "ip" }

/-- A master-file record with `src_ips = {A, B}`, playing the existing
side of a `_merge_master_data` collision. -/
def masterAB : Item :=
  { emptyRecord with
    indicator := "1.2.3.4", indicator_type := "ip",
    first_seen := TsStr.iso 0, last_seen := TsStr.iso 777600,
    total_hits := some (PyNum.int 40), src_ips := some ["A", "B"] }

section Lemmas

theorem storeGet_storePut_self (s : DynStore) (k : String) (v : StoredItem) :
    storeGet (storePut s k v) k = some v := by
  induction s with
  | nil => simp [storePut, storeGet]
  | cons hd tl ih =>
      obtain ⟨k₂, v₂⟩ := hd
      by_cases h : k₂ = k
      · simp [storePut, storeGet, h]
      · simp [storePut, storeGet, h, ih]

theorem storeGet_applyUpdate_self (s : DynStore) (k : String) (u : UpdateSpec) :
    storeGet (applyUpdate s k u) k =
      some (applyUpdateTo ((storeGet s k).getD blankStored) u) := by
  simp [applyUpdate, storeGet_storePut_self]

/-- The merged `final_first_seen` string always reparses: each branch of
the merge yields either a reformatted datetime or a string that already
parsed. -/
theorem mergeFirstSeen_parses (now : Int) (ex nw : TsStr) :
    ∃ a, parseIso (mergeFirstSeen now ex nw) = some a := by
  unfold mergeFirstSeen
  cases hex : parseIso ex with
  | none =>
      cases hnw : parseIso nw with
      | none => exact ⟨now, rfl⟩
      | some b => exact ⟨b, hnw⟩
  | some a =>
      cases hnw : parseIso nw with
      | none => exact ⟨a, hex⟩
      | some b => exact ⟨min a b, rfl⟩

/-- The merged `final_last_seen` string always reparses. -/
theorem mergeLastSeen_parses (now : Int) (ex nw : TsStr) :
    ∃ a, parseIso (mergeLastSeen now ex nw) = some a := by
  unfold mergeLastSeen
  cases hex : parseIso ex with
  | none =>
      cases hnw : parseIso nw with
      | none => exact ⟨now, rfl⟩
      | some b => exact ⟨b, hnw⟩
  | some a =>
      cases hnw : parseIso nw with
      | none => exact ⟨a, hex⟩
      | some b => exact ⟨max a b, rfl⟩

/-- When the existing bound parses, the merged `final_first_seen` parses
to a value no larger. -/
theorem mergeFirstSeen_mono (now : Int) (ex nw : TsStr) (t : Int)
    (h : parseIso ex = some t) :
    ∃ u, parseIso (mergeFirstSeen now ex nw) = some u ∧ u ≤ t := by
  unfold mergeFirstSeen
  rw [h]
  cases hnw : parseIso nw with
  | none => exact ⟨t, h, le_refl t⟩
  | some b => exact ⟨min t b, rfl, min_le_left t b⟩

/-- When the existing bound parses, the merged `final_last_seen` parses
to a value no smaller. -/
theorem mergeLastSeen_mono (now : Int) (ex nw : TsStr) (t : Int)
    (h : parseIso ex = some t) :
    ∃ u, parseIso (mergeLastSeen now ex nw) = some u ∧ t ≤ u := by
  unfold mergeLastSeen
  rw [h]
  cases hnw : parseIso nw with
  | none => exact ⟨t, h, le_refl t⟩
  | some b => exact ⟨max t b, rfl, le_max_left t b⟩

/-- In the existing-aggregate branch both merged bounds always reparse,
so `days_seen` is always the recomputed value: the `else 0` of lines
342–343 is unreachable. -/
theorem existingDays_eq (now : Int) (ex : StoredItem) (it : Item) :
    ∃ a b, parseIso (mergeFirstSeen now ex.first_seen it.first_seen) = some a
      ∧ parseIso (mergeLastSeen now ex.last_seen it.last_seen) = some b
      ∧ existingDays now ex it = daysBetween a b := by
  obtain ⟨a, ha⟩ := mergeFirstSeen_parses now ex.first_seen it.first_seen
  obtain ⟨b, hb⟩ := mergeLastSeen_parses now ex.last_seen it.last_seen
  exact ⟨a, b, ha, hb, by unfold existingDays; rw [ha, hb]⟩

theorem dynamoStep_existing (env : DynamoEnv) (store : DynStore) (it : Item)
    (ex : StoredItem) (n : Int)
    (h1 : ¬ it.indicator = "") (h2 : ¬ it.indicator_type = "")
    (hex : (if env.readFails (dynKey it) = true then none
            else storeGet store (dynKey it)) = some ex)
    (hn : pyIntD it.total_hits = Except.ok n)
    (hw : env.writeFails (dynKey it) = false) :
    dynamoStep env store it =
      Except.ok (applyUpdate store (dynKey it)
        (mkUpdate env it (existingMerge env.now ex it n))) := by
  unfold dynamoStep
  simp [h1, h2, hex, hn, hw]

theorem dynamoStep_new (env : DynamoEnv) (store : DynStore) (it : Item)
    (n : Int) (m : TsStr × TsStr × Int × ℚ)
    (h1 : ¬ it.indicator = "") (h2 : ¬ it.indicator_type = "")
    (hg : (if env.readFails (dynKey it) = true then none
           else storeGet store (dynKey it)) = none)
    (hn : pyIntD it.total_hits = Except.ok n)
    (hm : newMerge env.now it n = Except.ok m)
    (hw : env.writeFails (dynKey it) = false) :
    dynamoStep env store it =
      Except.ok (applyUpdate store (dynKey it) (mkUpdate env it m)) := by
  unfold dynamoStep
  simp [h1, h2, hg, hn, hm, hw]

/-- When both new-identity bounds reparse, `days_seen` is recomputed
from them. -/
theorem newMerge_eq_parse (now : Int) (it : Item) (n : Int) (a b : Int)
    (hf : parseIso (newBound now it.first_seen) = some a)
    (hl : parseIso (newBound now it.last_seen) = some b) :
    newMerge now it n =
      Except.ok (newBound now it.first_seen, newBound now it.last_seen, n,
        daysBetween a b) := by
  unfold newMerge
  simp only [hf, hl]

/-- When a new-identity bound does not reparse, `days_seen` falls back
to `float(item.get('days_seen', 0))`. -/
theorem newMerge_eq_fallback (now : Int) (it : Item) (n : Int) (q : ℚ)
    (hpf : parseIso (newBound now it.first_seen) = none
      ∨ parseIso (newBound now it.last_seen) = none)
    (hq : pyFloatD it.days_seen = Except.ok q) :
    newMerge now it n =
      Except.ok (newBound now it.first_seen, newBound now it.last_seen, n, q) := by
  unfold newMerge
  rcases hpf with hpf | hpf
  · simp only [hpf, hq]
  · cases hf : parseIso (newBound now it.first_seen) <;>
      simp only [hf, hpf, hq]

/-- `newMerge` can only fail through the `float(...)` conversion of the
incoming `days_seen`. -/
theorem newMerge_ok (now : Int) (it : Item) (n : Int) (q : ℚ)
    (hq : pyFloatD it.days_seen = Except.ok q) :
    ∃ m, newMerge now it n = Except.ok m := by
  cases hf : parseIso (newBound now it.first_seen) with
  | none => exact ⟨_, newMerge_eq_fallback now it n q (Or.inl hf) hq⟩
  | some a =>
      cases hl : parseIso (newBound now it.last_seen) with
      | none => exact ⟨_, newMerge_eq_fallback now it n q (Or.inr hl) hq⟩
      | some b => exact ⟨_, newMerge_eq_parse now it n a b hf hl⟩

/-- Every successful `newMerge` result carries the new-identity bounds
and the incoming hit count unchanged. -/
theorem newMerge_spec (now : Int) (it : Item) (n : Int)
    (m : TsStr × TsStr × Int × ℚ) (hm : newMerge now it n = Except.ok m) :
    m.1 = newBound now it.first_seen ∧ m.2.1 = newBound now it.last_seen
      ∧ m.2.2.1 = n := by
  unfold newMerge at hm
  cases hf : parseIso (newBound now it.first_seen) <;>
    cases hl : parseIso (newBound now it.last_seen) <;>
      simp only [hf, hl] at hm
  · cases hq : pyFloatD it.days_seen <;> simp only [hq] at hm
    · exact absurd hm (by simp)
    · rw [Except.ok.injEq] at hm
      subst hm; exact ⟨rfl, rfl, rfl⟩
  · cases hq : pyFloatD it.days_seen <;> simp only [hq] at hm
    · exact absurd hm (by simp)
    · rw [Except.ok.injEq] at hm
      subst hm; exact ⟨rfl, rfl, rfl⟩
  · cases hq : pyFloatD it.days_seen <;> simp only [hq] at hm
    · exact absurd hm (by simp)
    · rw [Except.ok.injEq] at hm
      subst hm; exact ⟨rfl, rfl, rfl⟩
  · rw [Except.ok.injEq] at hm
    subst hm; exact ⟨rfl, rfl, rfl⟩

/-- `merge_lists` produces exactly the set union of the two sides. -/
theorem mem_mergeLists (a b : Option (List String)) (x : String) :
    x ∈ mergeLists a b ↔ x ∈ (a.getD []) ∨ x ∈ (b.getD []) := by
  simp [mergeLists]

/-- `merge_lists` collapses duplicates (it is `list(set(...))`). -/
theorem mergeLists_nodup (a b : Option (List String)) :
    (mergeLists a b).Nodup :=
  List.nodup_dedup _

/-- Unfolding of a successful `_merge_master_data` key collision. -/
theorem mergeMasterPair_eq (now : Int) (ex nw : Item)
    (e n us₁ us₂ ud₁ ud₂ : Int)
    (he : pyIntD ex.total_hits = Except.ok e)
    (hn : pyIntD nw.total_hits = Except.ok n)
    (hu₁ : pyIntD ex.unique_src_ips = Except.ok us₁)
    (hu₂ : pyIntD nw.unique_src_ips = Except.ok us₂)
    (hd₁ : pyIntD ex.unique_dest_ips = Except.ok ud₁)
    (hd₂ : pyIntD nw.unique_dest_ips = Except.ok ud₂) :
    mergeMasterPair now ex nw = Except.ok
      { indicator := nw.indicator, indicator_type := nw.indicator_type,
        first_seen := mergeFirstSeen now ex.first_seen nw.first_seen,
        last_seen := mergeLastSeen now ex.last_seen nw.last_seen,
        total_hits := some (PyNum.int (e + n)),
        days_seen := some (masterDays now ex nw),
        src_ips := some (mergeLists ex.src_ips nw.src_ips),
        dest_ips := some (mergeLists ex.dest_ips nw.dest_ips),
        users := some (mergeLists ex.users nw.users),
        sourcetypes := some (mergeLists ex.sourcetypes nw.sourcetypes),
        actions := some (mergeLists ex.actions nw.actions),
        types := some (mergeLists ex.types nw.types),
        unique_src_ips := some (PyNum.int (max us₁ us₂)),
        unique_dest_ips := some (PyNum.int (max ud₁ ud₂)) } := by
  unfold mergeMasterPair
  simp only [he, hn, hu₁, hu₂, hd₁, hd₂]

/-- In the master merge both merged bounds always reparse, so
`days_seen` is always the recomputed value: the carry-forward branch of
lines 804–805 is unreachable. -/
theorem masterDays_eq (now : Int) (ex nw : Item) :
    ∃ a b, parseIso (mergeFirstSeen now ex.first_seen nw.first_seen) = some a
      ∧ parseIso (mergeLastSeen now ex.last_seen nw.last_seen) = some b
      ∧ masterDays now ex nw = PyNum.float (daysBetween a b) := by
  obtain ⟨a, ha⟩ := mergeFirstSeen_parses now ex.first_seen nw.first_seen
  obtain ⟨b, hb⟩ := mergeLastSeen_parses now ex.last_seen nw.last_seen
  exact ⟨a, b, ha, hb, by unfold masterDays; rw [ha, hb]⟩

theorem dynamoRun_cons_ok (env : DynamoEnv) (store s₂ : DynStore)
    (it : Item) (rest : List Item)
    (h : dynamoStep env store it = Except.ok s₂) :
    dynamoRun env store (it :: rest) = dynamoRun env s₂ rest := by
  simp only [dynamoRun, h]

theorem dynamoRun_cons_error (env : DynamoEnv) (store : DynStore)
    (it : Item) (rest : List Item) (e : DynErr)
    (h : dynamoStep env store it = Except.error e) :
    dynamoRun env store (it :: rest) = (store, some e) := by
  simp only [dynamoRun, h]

/-- With parsable numeric fields, a record with a non-empty identity
reaches its `update_item` call; when that write raises, the error
propagates out of the step. -/
theorem dynamoStep_writeFailed (env : DynamoEnv) (store : DynStore)
    (it : Item) (n : Int) (q : ℚ)
    (h1 : ¬ it.indicator = "") (h2 : ¬ it.indicator_type = "")
    (hn : pyIntD it.total_hits = Except.ok n)
    (hq : pyFloatD it.days_seen = Except.ok q)
    (hw : env.writeFails (dynKey it) = true) :
    dynamoStep env store it = Except.error (DynErr.writeFailed (dynKey it)) := by
  unfold dynamoStep
  rcases hex : (if env.readFails (dynKey it) = true then none
      else storeGet store (dynKey it)) with _ | ex
  · obtain ⟨m, hm⟩ := newMerge_ok env.now it n q hq
    simp [h1, h2, hex, hn, hm, hw]
  · simp [h1, h2, hex, hn, hw]

/-- Folding a batch of observations for one identity through
`export_to_dynamodb` accumulates `total_hits` additively over whatever
the store already held. -/
theorem dynamoRun_sum (env : DynamoEnv) (ind typ : String)
    (hitVal : Item → Int)
    (h1 : ¬ ind = "") (h2 : ¬ typ = "")
    (hr : env.readFails (typ ++ "#" ++ ind) = false)
    (hw : env.writeFails (typ ++ "#" ++ ind) = false) :
    ∀ (items : List Item) (store : DynStore),
      (∀ it ∈ items, it.indicator = ind ∧ it.indicator_type = typ ∧
        pyIntD it.total_hits = Except.ok (hitVal it) ∧
        ∃ q, pyFloatD it.days_seen = Except.ok q) →
      (dynamoRun env store items).2 = none ∧
      ((storeGet (dynamoRun env store items).1 (typ ++ "#" ++ ind)).map
          StoredItem.total_hits).getD 0
        = ((storeGet store (typ ++ "#" ++ ind)).map
            StoredItem.total_hits).getD 0
          + (items.map hitVal).sum := by
  intro items
  induction items with
  | nil =>
      intro store _
      exact ⟨rfl, by simp [dynamoRun]⟩
  | cons it rest ih =>
      intro store hall
      obtain ⟨hind, htyp, hhits, q, hq⟩ := hall it (List.mem_cons_self it rest)
      have hkey : dynKey it = typ ++ "#" ++ ind := by
        rw [dynKey, hind, htyp]
      have h1x : ¬ it.indicator = "" := by rw [hind]; exact h1
      have h2x : ¬ it.indicator_type = "" := by rw [htyp]; exact h2
      have hwx : env.writeFails (dynKey it) = false := by rw [hkey]; exact hw
      rcases hex : storeGet store (typ ++ "#" ++ ind) with _ | ex
      · obtain ⟨m, hm⟩ := newMerge_ok env.now it (hitVal it) q hq
        obtain ⟨hmf, hml, hmh⟩ := newMerge_spec env.now it (hitVal it) m hm
        have hifex : (if env.readFails (dynKey it) = true then none
            else storeGet store (dynKey it)) = none := by
          rw [hkey, hr]
          simpa using hex
        have hstep := dynamoStep_new env store it (hitVal it) m h1x h2x hifex
          hhits hm hwx
        rw [hkey] at hstep
        rw [dynamoRun_cons_ok env store _ it rest hstep]
        obtain ⟨hres, hsum⟩ :=
          ih (applyUpdate store (typ ++ "#" ++ ind) (mkUpdate env it m))
            (fun x hx => hall x (List.mem_cons_of_mem it hx))
        refine ⟨hres, ?_⟩
        rw [hsum, storeGet_applyUpdate_self, hex]
        simp only [Option.map_some, Option.getD_some, Option.getD_none,
          Option.map_none, List.map_cons, List.sum_cons]
        show (mkUpdate env it m).total_hits + (rest.map hitVal).sum
          = 0 + (hitVal it + (rest.map hitVal).sum)
        rw [show (mkUpdate env it m).total_hits = m.2.2.1 from rfl, hmh]
        omega
      · have hifex : (if env.readFails (dynKey it) = true then none
            else storeGet store (dynKey it)) = some ex := by
          rw [hkey, hr]
          simpa using hex
        have hstep := dynamoStep_existing env store it ex (hitVal it) h1x h2x
          hifex hhits hwx
        rw [hkey] at hstep
        rw [dynamoRun_cons_ok env store _ it rest hstep]
        obtain ⟨hres, hsum⟩ :=
          ih (applyUpdate store (typ ++ "#" ++ ind)
              (mkUpdate env it (existingMerge env.now ex it (hitVal it))))
            (fun x hx => hall x (List.mem_cons_of_mem it hx))
        refine ⟨hres, ?_⟩
        rw [hsum, storeGet_applyUpdate_self, hex]
        simp only [Option.map_some, Option.getD_some, List.map_cons,
          List.sum_cons]
        show ex.total_hits + hitVal it + (rest.map hitVal).sum
          = ex.total_hits + (hitVal it + (rest.map hitVal).sum)
        omega

end Lemmas

section Claims

/-- Claim C8: the snapshot gate returns `false` when the master file's
last-modified marker carries today's calendar date, and `true` when the
marker's date is an earlier day, when the marker is absent (`NoSuchKey`
or a missing `LastModified`), or when the marker check fails.  The
first conjunct, instantiated at any `today`, is exactly the second call
of the throttle-idempotence scenario: once a run has produced a marker
dated today, a further call that day returns `false`. -/
theorem c8_snapshot_gate (today d : Int) :
    shouldUpdateS3MasterFile true (HeadResult.ok (some today)) today = false
    ∧ (d < today →
        shouldUpdateS3MasterFile true (HeadResult.ok (some d)) today = true)
    ∧ shouldUpdateS3MasterFile true HeadResult.noSuchKey today = true
    ∧ shouldUpdateS3MasterFile true (HeadResult.ok none) today = true
    ∧ shouldUpdateS3MasterFile true HeadResult.otherError today = true := by
  refine ⟨?_, ?_, rfl, rfl, rfl⟩
  · simp [shouldUpdateS3MasterFile]
  · intro h
    simp [shouldUpdateS3MasterFile, ne_of_lt h]

/-- Claim C8 witness: a marker dated day 738899 gates a second call on
day 738899 to `false`, while a day-738898 marker yields `true`. -/
theorem c8_snapshot_gate_witness :
    shouldUpdateS3MasterFile true (HeadResult.ok (some 738899)) 738899 = false
    ∧ shouldUpdateS3MasterFile true (HeadResult.ok (some 738898)) 738899 = true
    ∧ shouldUpdateS3MasterFile true HeadResult.noSuchKey 738899 = true :=
  ⟨(c8_snapshot_gate 738899 738898).1,
   (c8_snapshot_gate 738899 738898).2.1 (by decide),
   (c8_snapshot_gate 738899 738898).2.2.1⟩

/-- Claim C10: with no S3 client configured the snapshot gate returns
`false` for every marker state (fails closed, without any marker
check), whereas a failed marker check with a configured client returns
`true` (fails open). -/
theorem c10_unconfigured_s3_fails_closed (head : HeadResult) (today : Int) :
    shouldUpdateS3MasterFile false head today = false
    ∧ shouldUpdateS3MasterFile true HeadResult.otherError today = true :=
  ⟨rfl, rfl⟩

/-- Claim C9: a record whose `indicator` or `indicator_type` is empty
is skipped by the DynamoDB loop (the step returns the store unchanged
and the run proceeds to the rest of the batch) and by the RDS loop (no
row is built or executed for it), with no error in either path. -/
theorem c9_empty_identity_skipped (env : DynamoEnv) (store : DynStore)
    (it : Item) (rest : List Item) (now : Int)
    (h : it.indicator = "" ∨ it.indicator_type = "") :
    dynamoStep env store it = Except.ok store
    ∧ dynamoRun env store (it :: rest) = dynamoRun env store rest
    ∧ rdsRows now (it :: rest) = rdsRows now rest := by
  have hstep : dynamoStep env store it = Except.ok store := by
    unfold dynamoStep
    rw [if_pos h]
  refine ⟨hstep, dynamoRun_cons_ok env store store it rest hstep, ?_⟩
  show (if it.indicator = "" ∨ it.indicator_type = "" then rdsRows now rest
    else _) = rdsRows now rest
  rw [if_pos h]

/-- Claim C9 witness: the empty-`indicator` record is dropped by both
export paths with the store untouched and no error. -/
theorem c9_empty_identity_skipped_witness :
    dynamoStep okEnv [] obsNoIndicator = Except.ok []
    ∧ dynamoRun okEnv [] (obsNoIndicator :: [obsOtherKey])
        = dynamoRun okEnv [] [obsOtherKey]
    ∧ rdsRows 0 (obsNoIndicator :: [obsOtherKey]) = rdsRows 0 [obsOtherKey] :=
  c9_empty_identity_skipped okEnv [] obsNoIndicator [obsOtherKey] 0
    (Or.inl rfl)

/-- Claim C1 counterexample: merging an incoming observation with
`src_ips = {B, C}` into an existing DynamoDB aggregate with
`src_ips = {A, B}` stores `{B, C}` — the `SET`-based update replaces
the stored set instead of unioning, dropping `A` — not the `{A, B, C}`
the claim requires. -/
theorem c1_counterexample :
    exAB.src_ips = some ["A", "B"]
    ∧ obsBC.src_ips = some ["B", "C"]
    ∧ (dynamoRun okEnv storeAB [obsBC]).2 = none
    ∧ Option.map StoredItem.src_ips
        (storeGet (dynamoRun okEnv storeAB [obsBC]).1 "ip#1.2.3.4")
        = some (some ["B", "C"])
    ∧ ¬ ("A" ∈ (["B", "C"] : List String)) :=
  ⟨rfl, rfl, rfl, rfl, by decide⟩

/-- Claim C2 counterexample: when the write for the first identity of a
two-record batch fails, `export_to_dynamodb` propagates the error out
of its loop: the run ends with the write error, the store is unchanged,
and the second record — a distinct, healthy identity — is never
written. -/
theorem c2_counterexample :
    failWriteEnv.writeFails (dynKey obsFailKey) = true
    ∧ (dynamoRun failWriteEnv [] [obsFailKey, obsOtherKey]).2
        = some (DynErr.writeFailed "ip#1.1.1.1")
    ∧ (dynamoRun failWriteEnv [] [obsFailKey, obsOtherKey]).1 = []
    ∧ storeGet (dynamoRun failWriteEnv [] [obsFailKey, obsOtherKey]).1
        (dynKey obsOtherKey) = none :=
  ⟨rfl, rfl, rfl, rfl⟩

/-- Claim C6 counterexample: an observation for a fresh identity whose
bounds are non-empty unparsable strings is stored with those junk
strings verbatim — not with the current time, as the claim requires for
unparsable bounds. -/
theorem c6_counterexample :
    (dynamoRun okEnv [] [obsJunkBounds]).2 = none
    ∧ Option.map StoredItem.first_seen
        (storeGet (dynamoRun okEnv [] [obsJunkBounds]).1
          (dynKey obsJunkBounds))
        = some (TsStr.junk "not-a-timestamp")
    ∧ Option.map StoredItem.last_seen
        (storeGet (dynamoRun okEnv [] [obsJunkBounds]).1
          (dynKey obsJunkBounds))
        = some (TsStr.junk "also-not-a-timestamp")
    ∧ parseIso (TsStr.junk "not-a-timestamp") = none
    ∧ TsStr.junk "not-a-timestamp" ≠ TsStr.iso okEnv.now :=
  ⟨rfl, rfl, rfl, rfl, by decide⟩

/-- Claim C7 counterexample: a record whose `total_hits` is the
non-numeric string "abc" makes `int(...)` raise inside the DynamoDB
loop; the error propagates, aborting the whole batch (the healthy
second record is never written).  Likewise the RDS path's bare
`fromisoformat` raises on a non-empty unparsable timestamp. -/
theorem c7_counterexample :
    obsJunkHits.total_hits = some (PyNum.junkStr "abc")
    ∧ (dynamoRun okEnv [] [obsJunkHits, obsOtherKey]).2 = some DynErr.badInt
    ∧ (dynamoRun okEnv [] [obsJunkHits, obsOtherKey]).1 = []
    ∧ storeGet (dynamoRun okEnv [] [obsJunkHits, obsOtherKey]).1
        (dynKey obsOtherKey) = none
    ∧ rdsRows okEnv.now [obsJunkTsRds] = Except.error RdsErr.badTs :=
  ⟨rfl, rfl, rfl, rfl, rfl⟩

/-- Claim C1 amended: in the DynamoDB path a multi-valued attribute
present and non-empty on the incoming record **replaces** the stored
set (so a merge can shrink a set), while an attribute absent or empty
on the incoming record is left untouched; genuine set-union semantics
— duplicates collapsing, `{A,B} ∪ {B,C} = {A,B,C}` — hold only in the
master-file merge `_merge_master_data`.  Stated for `src_ips`; the
other five attributes flow through the same `condAttr`/`setOr` and
`mergeLists` logic, as `mkUpdate` and `mergeMasterPair` show. -/
theorem c1_amended (env : DynamoEnv) (store : DynStore) (it : Item)
    (ex : StoredItem) (n : Int) (l : List String)
    (now : Int) (exm nwm : Item) (e nh us₁ us₂ ud₁ ud₂ : Int)
    (h1 : ¬ it.indicator = "") (h2 : ¬ it.indicator_type = "")
    (hex : (if env.readFails (dynKey it) = true then none
            else storeGet store (dynKey it)) = some ex)
    (hn : pyIntD it.total_hits = Except.ok n)
    (hw : env.writeFails (dynKey it) = false)
    (he : pyIntD exm.total_hits = Except.ok e)
    (hn₂ : pyIntD nwm.total_hits = Except.ok nh)
    (hu₁ : pyIntD exm.unique_src_ips = Except.ok us₁)
    (hu₂ : pyIntD nwm.unique_src_ips = Except.ok us₂)
    (hd₁ : pyIntD exm.unique_dest_ips = Except.ok ud₁)
    (hd₂ : pyIntD nwm.unique_dest_ips = Except.ok ud₂) :
    dynamoStep env store it = Except.ok (applyUpdate store (dynKey it)
        (mkUpdate env it (existingMerge env.now ex it n)))
    ∧ (it.src_ips = some l → ¬ l = [] →
        Option.map StoredItem.src_ips
          (storeGet (applyUpdate store (dynKey it)
            (mkUpdate env it (existingMerge env.now ex it n))) (dynKey it))
          = some (some l))
    ∧ (it.src_ips = none →
        Option.map StoredItem.src_ips
          (storeGet (applyUpdate store (dynKey it)
            (mkUpdate env it (existingMerge env.now ex it n))) (dynKey it))
          = some ex.src_ips)
    ∧ (∃ mm, mergeMasterPair now exm nwm = Except.ok mm
        ∧ mm.src_ips = some (mergeLists exm.src_ips nwm.src_ips)
        ∧ (∀ x, x ∈ mergeLists exm.src_ips nwm.src_ips
            ↔ x ∈ (exm.src_ips.getD []) ∨ x ∈ (nwm.src_ips.getD []))
        ∧ (mergeLists exm.src_ips nwm.src_ips).Nodup) := by
  have hrf : env.readFails (dynKey it) = false := by
    by_cases hb : env.readFails (dynKey it) = true
    · rw [if_pos hb] at hex; cases hex
    · simpa using hb
  have hget : storeGet store (dynKey it) = some ex := by
    rw [hrf] at hex
    simpa using hex
  have hstep := dynamoStep_existing env store it ex n h1 h2 hex hn hw
  refine ⟨hstep, ?_, ?_, ?_⟩
  · intro hsip hne
    rw [storeGet_applyUpdate_self, hget]
    have hl : l.isEmpty = false := by
      cases l with
      | nil => exact absurd rfl hne
      | cons a as => rfl
    simp [applyUpdateTo, mkUpdate, condAttr, setOr, hsip, hl]
  · intro hsip
    rw [storeGet_applyUpdate_self, hget]
    simp [applyUpdateTo, mkUpdate, condAttr, setOr, hsip]
  · exact ⟨_, mergeMasterPair_eq now exm nwm e nh us₁ us₂ ud₁ ud₂
      he hn₂ hu₁ hu₂ hd₁ hd₂, rfl,
      fun x => mem_mergeLists exm.src_ips nwm.src_ips x,
      mergeLists_nodup exm.src_ips nwm.src_ips⟩

/-- Claim C1 amended, witness: the scenario pair — DynamoDB stores
`{B, C}` over the existing `{A, B}`, while the master merge of the same
data yields exactly the union. -/
theorem c1_amended_witness :
    Option.map StoredItem.src_ips
      (storeGet (applyUpdate storeAB (dynKey obsBC)
        (mkUpdate okEnv obsBC (existingMerge okEnv.now exAB obsBC 2)))
        (dynKey obsBC)) = some (some ["B", "C"]) :=
  (c1_amended okEnv storeAB obsBC exAB 2 ["B", "C"] 0 masterAB obsBC
      40 2 0 0 0 0 (by decide) (by decide) rfl rfl rfl rfl rfl rfl rfl
      rfl rfl).2.1 rfl (by decide)

/-- Claim C2 amended: a failed DynamoDB write for one identity aborts
the entire remaining batch — the exception propagates out of
`export_to_dynamodb`'s single `try`, the store keeps only the writes
already committed, and no later observation is processed. -/
theorem c2_amended (env : DynamoEnv) (store : DynStore) (it : Item)
    (rest : List Item) (n : Int) (q : ℚ)
    (h1 : ¬ it.indicator = "") (h2 : ¬ it.indicator_type = "")
    (hn : pyIntD it.total_hits = Except.ok n)
    (hq : pyFloatD it.days_seen = Except.ok q)
    (hw : env.writeFails (dynKey it) = true) :
    dynamoRun env store (it :: rest)
      = (store, some (DynErr.writeFailed (dynKey it))) :=
  dynamoRun_cons_error env store it rest _
    (dynamoStep_writeFailed env store it n q h1 h2 hn hq hw)

/-- Claim C2 amended, witness: the two-record batch from the
counterexample input stops at the first record's failed write. -/
theorem c2_amended_witness :
    dynamoRun failWriteEnv [] (obsFailKey :: [obsOtherKey])
      = ([], some (DynErr.writeFailed (dynKey obsFailKey))) :=
  c2_amended failWriteEnv [] obsFailKey [obsOtherKey] 5 0
    (by decide) (by decide) rfl rfl rfl

/-- Claim C6 amended: merging an observation for an identity with no
existing aggregate stores the observation's own bound strings verbatim
whenever they are non-empty — parsable or not — and substitutes the
current time only for an empty/missing bound. -/
theorem c6_amended (env : DynamoEnv) (store : DynStore) (it : Item)
    (n : Int) (m : TsStr × TsStr × Int × ℚ) (s : String)
    (h1 : ¬ it.indicator = "") (h2 : ¬ it.indicator_type = "")
    (hex : (if env.readFails (dynKey it) = true then none
            else storeGet store (dynKey it)) = none)
    (hn : pyIntD it.total_hits = Except.ok n)
    (hm : newMerge env.now it n = Except.ok m)
    (hw : env.writeFails (dynKey it) = false) :
    dynamoStep env store it = Except.ok (applyUpdate store (dynKey it)
        (mkUpdate env it m))
    ∧ Option.map StoredItem.first_seen
        (storeGet (applyUpdate store (dynKey it) (mkUpdate env it m))
          (dynKey it))
        = some (newBound env.now it.first_seen)
    ∧ Option.map StoredItem.last_seen
        (storeGet (applyUpdate store (dynKey it) (mkUpdate env it m))
          (dynKey it))
        = some (newBound env.now it.last_seen)
    ∧ newBound env.now TsStr.empty = TsStr.iso env.now
    ∧ newBound env.now (TsStr.junk s) = TsStr.junk s
    ∧ (∀ t : Int, newBound env.now (TsStr.iso t) = TsStr.iso t) := by
  obtain ⟨hmf, hml, _⟩ := newMerge_spec env.now it n m hm
  have hstep := dynamoStep_new env store it n m h1 h2 hex hn hm hw
  refine ⟨hstep, ?_, ?_, rfl, rfl, fun t => rfl⟩
  · rw [storeGet_applyUpdate_self]
    exact congrArg some hmf
  · rw [storeGet_applyUpdate_self]
    exact congrArg some hml

/-- Claim C6 amended, witness: the junk-bounds observation is stored
with its own unparsable strings, and `newBound` substitutes "now" only
for the empty bound. -/
theorem c6_amended_witness :
    Option.map StoredItem.first_seen
      (storeGet (applyUpdate [] (dynKey obsJunkBounds)
        (mkUpdate okEnv obsJunkBounds
          (TsStr.junk "not-a-timestamp", TsStr.junk "also-not-a-timestamp",
            1, (0 : ℚ))))
        (dynKey obsJunkBounds))
      = some (newBound okEnv.now obsJunkBounds.first_seen) :=
  (c6_amended okEnv [] obsJunkBounds 1
      (TsStr.junk "not-a-timestamp", TsStr.junk "also-not-a-timestamp",
        1, (0 : ℚ)) "x"
      (by decide) (by decide) rfl rfl rfl rfl).2.1

/-- Claim C7 amended: unparsable timestamps in the DynamoDB path
degrade to `None` and never abort (a record with junk bounds but
parsable numerics completes its merge), and a missing-identity record
is dropped; but an unparsable **numeric** `total_hits` raises in the
DynamoDB loop and aborts the whole batch, and the RDS path's unguarded
`fromisoformat` raises even on unparsable timestamps. -/
theorem c7_amended (env : DynamoEnv) (store : DynStore)
    (it₁ it₂ it₃ : Item) (rest : List Item) (s t : String)
    (n : Int) (q : ℚ) (now : Int)
    (h11 : ¬ it₁.indicator = "") (h12 : ¬ it₁.indicator_type = "")
    (hn1 : pyIntD it₁.total_hits = Except.ok n)
    (hq1 : pyFloatD it₁.days_seen = Except.ok q)
    (hw1 : env.writeFails (dynKey it₁) = false)
    (h21 : ¬ it₂.indicator = "") (h22 : ¬ it₂.indicator_type = "")
    (hh2 : it₂.total_hits = some (PyNum.junkStr t))
    (h31 : ¬ it₃.indicator = "") (h32 : ¬ it₃.indicator_type = "")
    (hf3 : it₃.first_seen = TsStr.junk s) :
    parseIso (TsStr.junk s) = none
    ∧ (∃ s₂, dynamoStep env store it₁ = Except.ok s₂)
    ∧ dynamoStep env store it₂ = Except.error DynErr.badInt
    ∧ dynamoRun env store (it₂ :: rest) = (store, some DynErr.badInt)
    ∧ rdsRows now (it₃ :: rest) = Except.error RdsErr.badTs := by
  have hbad : dynamoStep env store it₂ = Except.error DynErr.badInt := by
    unfold dynamoStep
    simp [h21, h22, hh2, pyIntD, pyInt]
  refine ⟨rfl, ?_, hbad, dynamoRun_cons_error env store it₂ rest _ hbad, ?_⟩
  · rcases hif : (if env.readFails (dynKey it₁) = true then none
        else storeGet store (dynKey it₁)) with _ | ex
    · obtain ⟨m, hm⟩ := newMerge_ok env.now it₁ n q hq1
      exact ⟨_, dynamoStep_new env store it₁ n m h11 h12 hif hn1 hm hw1⟩
    · exact ⟨_, dynamoStep_existing env store it₁ ex n h11 h12 hif hn1 hw1⟩
  · show (if it₃.indicator = "" ∨ it₃.indicator_type = ""
        then rdsRows now rest else _) = Except.error RdsErr.badTs
    rw [if_neg (by simp [h31, h32])]
    unfold rdsRowOfItem
    rw [hf3]
    rfl

/-- Claim C7 amended, witness: the junk-bounds record merges fine, the
junk-hits record aborts the DynamoDB batch, and the junk-timestamp
record aborts the RDS batch. -/
theorem c7_amended_witness :
    dynamoStep okEnv [] obsJunkHits = Except.error DynErr.badInt
    ∧ dynamoRun okEnv [] (obsJunkHits :: [obsOtherKey])
        = ([], some DynErr.badInt)
    ∧ rdsRows 0 (obsJunkTsRds :: [obsOtherKey])
        = Except.error RdsErr.badTs :=
  ⟨(c7_amended okEnv [] obsJunkBounds obsJunkHits obsJunkTsRds
      [obsOtherKey] "1st of May" "abc" 1 0 0
      (by decide) (by decide) rfl rfl rfl (by decide) (by decide) rfl
      (by decide) (by decide) rfl).2.2.1,
   (c7_amended okEnv [] obsJunkBounds obsJunkHits obsJunkTsRds
      [obsOtherKey] "1st of May" "abc" 1 0 0
      (by decide) (by decide) rfl rfl rfl (by decide) (by decide) rfl
      (by decide) (by decide) rfl).2.2.2.1,
   (c7_amended okEnv [] obsJunkBounds obsJunkHits obsJunkTsRds
      [obsOtherKey] "1st of May" "abc" 1 0 0
      (by decide) (by decide) rfl rfl rfl (by decide) (by decide) rfl
      (by decide) (by decide) rfl).2.2.2.2⟩

/-- Claim C3: on a merge into an existing aggregate both merged bounds
always re-resolve, so `days_seen` is always `(final_last_seen −
final_first_seen)` in days rounded to 2 decimals — the non-resolving
fallbacks are unreachable there, making the claim's carry-forward
clauses vacuously true; on a new identity, `days_seen` is the formula
when both bounds resolve, and otherwise the incoming record's own
declared value via `float(item.get('days_seen', 0))`, defaulting to 0
when undeclared; the master merge likewise always recomputes from its
(always resolving) merged bounds. -/
theorem c3_days_seen
    (env : DynamoEnv) (store : DynStore) (it it₂ : Item) (ex : StoredItem)
    (n n₂ : Int) (q₂ : ℚ) (now : Int) (exm nwm : Item)
    (h1 : ¬ it.indicator = "") (h2 : ¬ it.indicator_type = "")
    (hex : (if env.readFails (dynKey it) = true then none
            else storeGet store (dynKey it)) = some ex)
    (hn : pyIntD it.total_hits = Except.ok n)
    (hw : env.writeFails (dynKey it) = false) :
    (∃ a b,
      parseIso (mergeFirstSeen env.now ex.first_seen it.first_seen) = some a
      ∧ parseIso (mergeLastSeen env.now ex.last_seen it.last_seen) = some b
      ∧ existingDays env.now ex it = daysBetween a b
      ∧ dynamoStep env store it = Except.ok (applyUpdate store (dynKey it)
          (mkUpdate env it (existingMerge env.now ex it n)))
      ∧ Option.map StoredItem.days_seen
          (storeGet (applyUpdate store (dynKey it)
            (mkUpdate env it (existingMerge env.now ex it n))) (dynKey it))
          = some (daysBetween a b))
    ∧ (∀ a b, parseIso (newBound now it₂.first_seen) = some a →
        parseIso (newBound now it₂.last_seen) = some b →
        newMerge now it₂ n₂ = Except.ok
          (newBound now it₂.first_seen, newBound now it₂.last_seen, n₂,
            daysBetween a b))
    ∧ (parseIso (newBound now it₂.first_seen) = none
        ∨ parseIso (newBound now it₂.last_seen) = none →
        pyFloatD it₂.days_seen = Except.ok q₂ →
        newMerge now it₂ n₂ = Except.ok
          (newBound now it₂.first_seen, newBound now it₂.last_seen, n₂, q₂))
    ∧ pyFloatD none = Except.ok 0
    ∧ (∃ a b,
        parseIso (mergeFirstSeen now exm.first_seen nwm.first_seen) = some a
        ∧ parseIso (mergeLastSeen now exm.last_seen nwm.last_seen) = some b
        ∧ masterDays now exm nwm = PyNum.float (daysBetween a b)) := by
  obtain ⟨a, b, ha, hb, hd⟩ := existingDays_eq env.now ex it
  have hstep := dynamoStep_existing env store it ex n h1 h2 hex hn hw
  refine ⟨⟨a, b, ha, hb, hd, hstep, ?_⟩,
    fun a₂ b₂ hfa hfb => newMerge_eq_parse now it₂ n₂ a₂ b₂ hfa hfb,
    fun hpf hq => newMerge_eq_fallback now it₂ n₂ q₂ hpf hq,
    rfl, masterDays_eq now exm nwm⟩
  rw [storeGet_applyUpdate_self]
  exact congrArg some hd

/-- Claim C3 witness: the existing-branch conjunct at a concrete merge,
with both resolved bounds and the recomputed `days_seen` exhibited. -/
theorem c3_days_seen_witness :
    ∃ a b,
      parseIso (mergeFirstSeen okEnv.now exAB.first_seen obsBC.first_seen)
        = some a
      ∧ parseIso (mergeLastSeen okEnv.now exAB.last_seen obsBC.last_seen)
        = some b
      ∧ existingDays okEnv.now exAB obsBC = daysBetween a b
      ∧ dynamoStep okEnv storeAB obsBC
        = Except.ok (applyUpdate storeAB (dynKey obsBC)
          (mkUpdate okEnv obsBC (existingMerge okEnv.now exAB obsBC 2)))
      ∧ Option.map StoredItem.days_seen
          (storeGet (applyUpdate storeAB (dynKey obsBC)
            (mkUpdate okEnv obsBC (existingMerge okEnv.now exAB obsBC 2)))
            (dynKey obsBC))
          = some (daysBetween a b) :=
  (c3_days_seen okEnv storeAB obsBC obsJunkBounds exAB 2 1 0 0 masterAB
    obsBC (by decide) (by decide) rfl rfl rfl).1

/-- Claim C4: merging `k` observations of one identity against an
initially empty store yields `total_hits = Σ hᵢ`; each single merge
against an existing aggregate stores exactly
`existing.total_hits + incoming` (with absent fields defaulting to 0),
unconditionally, so with non-negative incoming counts `total_hits`
never decreases; the master merge is additive in the same way. -/
theorem c4_total_hits (env : DynamoEnv) (ind typ : String)
    (hitVal : Item → Int) (items : List Item)
    (store : DynStore) (it : Item) (ex : StoredItem) (n : Int)
    (now : Int) (exm nwm : Item) (e nh us₁ us₂ ud₁ ud₂ : Int)
    (h1 : ¬ ind = "") (h2 : ¬ typ = "")
    (hr : env.readFails (typ ++ "#" ++ ind) = false)
    (hw : env.writeFails (typ ++ "#" ++ ind) = false)
    (hall : ∀ x ∈ items, x.indicator = ind ∧ x.indicator_type = typ ∧
        pyIntD x.total_hits = Except.ok (hitVal x) ∧
        ∃ q, pyFloatD x.days_seen = Except.ok q)
    (hi1 : ¬ it.indicator = "") (hi2 : ¬ it.indicator_type = "")
    (hex : (if env.readFails (dynKey it) = true then none
            else storeGet store (dynKey it)) = some ex)
    (hn : pyIntD it.total_hits = Except.ok n)
    (hwx : env.writeFails (dynKey it) = false)
    (he : pyIntD exm.total_hits = Except.ok e)
    (hn₂ : pyIntD nwm.total_hits = Except.ok nh)
    (hu₁ : pyIntD exm.unique_src_ips = Except.ok us₁)
    (hu₂ : pyIntD nwm.unique_src_ips = Except.ok us₂)
    (hd₁ : pyIntD exm.unique_dest_ips = Except.ok ud₁)
    (hd₂ : pyIntD nwm.unique_dest_ips = Except.ok ud₂) :
    ((dynamoRun env [] items).2 = none
      ∧ ((storeGet (dynamoRun env [] items).1 (typ ++ "#" ++ ind)).map
            StoredItem.total_hits).getD 0 = (items.map hitVal).sum)
    ∧ dynamoStep env store it = Except.ok (applyUpdate store (dynKey it)
        (mkUpdate env it (existingMerge env.now ex it n)))
    ∧ Option.map StoredItem.total_hits
        (storeGet (applyUpdate store (dynKey it)
          (mkUpdate env it (existingMerge env.now ex it n))) (dynKey it))
        = some (ex.total_hits + n)
    ∧ pyIntD none = Except.ok 0
    ∧ (0 ≤ n → ex.total_hits ≤ (existingMerge env.now ex it n).2.2.1)
    ∧ (∃ mm, mergeMasterPair now exm nwm = Except.ok mm
        ∧ mm.total_hits = some (PyNum.int (e + nh))) := by
  obtain ⟨hres, hsum⟩ := dynamoRun_sum env ind typ hitVal h1 h2 hr hw items
    [] hall
  have hstep := dynamoStep_existing env store it ex n hi1 hi2 hex hn hwx
  refine ⟨⟨hres, ?_⟩, hstep, ?_, rfl, ?_, ?_⟩
  · rw [hsum]
    show (0 : Int) + (items.map hitVal).sum = (items.map hitVal).sum
    omega
  · rw [storeGet_applyUpdate_self]
    rfl
  · intro hpos
    show ex.total_hits ≤ ex.total_hits + n
    omega
  · exact ⟨_, mergeMasterPair_eq now exm nwm e nh us₁ us₂ ud₁ ud₂
      he hn₂ hu₁ hu₂ hd₁ hd₂, rfl⟩

/-- Claim C4 witness: folding the two-copy batch of a 2-hit observation
from the empty store accumulates `total_hits` to the batch sum. -/
theorem c4_total_hits_witness :
    (dynamoRun okEnv [] [obsBC, obsBC]).2 = none
    ∧ ((storeGet (dynamoRun okEnv [] [obsBC, obsBC]).1
          ("ip" ++ "#" ++ "1.2.3.4")).map StoredItem.total_hits).getD 0
      = ([obsBC, obsBC].map (fun _ => (2 : Int))).sum :=
  (c4_total_hits okEnv "1.2.3.4" "ip" (fun _ => (2 : Int)) [obsBC, obsBC]
    storeAB obsBC exAB 2 0 masterAB obsBC 40 2 0 0 0 0
    (by decide) (by decide) rfl rfl
    (by
      intro x hx
      rcases List.mem_cons.mp hx with rfl | hx₂
      · exact ⟨rfl, rfl, rfl, 0, rfl⟩
      · rcases List.mem_cons.mp hx₂ with rfl | hx₃
        · exact ⟨rfl, rfl, rfl, 0, rfl⟩
        · cases hx₃)
    (by decide) (by decide) rfl rfl rfl rfl rfl rfl rfl rfl rfl).1

/-- Claim C5: across successive merges of one identity the aggregate's
`first_seen` is non-increasing and its `last_seen` non-decreasing:
whenever the existing bound parses to `t`, the merged bound parses to
some `u ≤ t` (resp. `t ≤ u`), and both the DynamoDB step and the master
merge store exactly these merged bounds. -/
theorem c5_monotonic_bounds (env : DynamoEnv) (store : DynStore)
    (it : Item) (ex : StoredItem) (n : Int)
    (now : Int) (x y : TsStr) (t : Int) (exm nwm : Item)
    (e nh us₁ us₂ ud₁ ud₂ : Int)
    (h1 : ¬ it.indicator = "") (h2 : ¬ it.indicator_type = "")
    (hex : (if env.readFails (dynKey it) = true then none
            else storeGet store (dynKey it)) = some ex)
    (hn : pyIntD it.total_hits = Except.ok n)
    (hw : env.writeFails (dynKey it) = false)
    (he : pyIntD exm.total_hits = Except.ok e)
    (hn₂ : pyIntD nwm.total_hits = Except.ok nh)
    (hu₁ : pyIntD exm.unique_src_ips = Except.ok us₁)
    (hu₂ : pyIntD nwm.unique_src_ips = Except.ok us₂)
    (hd₁ : pyIntD exm.unique_dest_ips = Except.ok ud₁)
    (hd₂ : pyIntD nwm.unique_dest_ips = Except.ok ud₂) :
    (parseIso x = some t →
      ∃ u, parseIso (mergeFirstSeen now x y) = some u ∧ u ≤ t)
    ∧ (parseIso x = some t →
      ∃ u, parseIso (mergeLastSeen now x y) = some u ∧ t ≤ u)
    ∧ dynamoStep env store it = Except.ok (applyUpdate store (dynKey it)
        (mkUpdate env it (existingMerge env.now ex it n)))
    ∧ Option.map StoredItem.first_seen
        (storeGet (applyUpdate store (dynKey it)
          (mkUpdate env it (existingMerge env.now ex it n))) (dynKey it))
        = some (mergeFirstSeen env.now ex.first_seen it.first_seen)
    ∧ Option.map StoredItem.last_seen
        (storeGet (applyUpdate store (dynKey it)
          (mkUpdate env it (existingMerge env.now ex it n))) (dynKey it))
        = some (mergeLastSeen env.now ex.last_seen it.last_seen)
    ∧ (∃ mm, mergeMasterPair now exm nwm = Except.ok mm
        ∧ mm.first_seen = mergeFirstSeen now exm.first_seen nwm.first_seen
        ∧ mm.last_seen = mergeLastSeen now exm.last_seen nwm.last_seen) := by
  have hstep := dynamoStep_existing env store it ex n h1 h2 hex hn hw
  refine ⟨fun hx => mergeFirstSeen_mono now x y t hx,
    fun hx => mergeLastSeen_mono now x y t hx, hstep, ?_, ?_, ?_⟩
  · rw [storeGet_applyUpdate_self]
    rfl
  · rw [storeGet_applyUpdate_self]
    rfl
  · exact ⟨_, mergeMasterPair_eq now exm nwm e nh us₁ us₂ ud₁ ud₂
      he hn₂ hu₁ hu₂ hd₁ hd₂, rfl, rfl⟩

/-- Claim C5 witness: at a concrete merge the stored `first_seen` is
the merged minimum-keeping bound of the existing aggregate. -/
theorem c5_monotonic_bounds_witness :
    ∃ u, parseIso (mergeFirstSeen okEnv.now (TsStr.iso 345600)
        (TsStr.iso 100)) = some u ∧ u ≤ 345600 :=
  (c5_monotonic_bounds okEnv storeAB obsBC exAB 2 okEnv.now
    (TsStr.iso 345600) (TsStr.iso 100) 345600 masterAB obsBC
    40 2 0 0 0 0 (by decide) (by decide) rfl rfl rfl rfl rfl rfl rfl
    rfl rfl).1 rfl

end Claims

end SplunkExport
